import Mathlib

/-
Verification of the `pdoc` documentation extractor (`pdoc/__init__.py`).

The development is a shallow embedding of the parts of the module that the
checked properties are about: the public-member-set computation of `Module`
(`__fetch_public_objs`, `is_exported`, `is_submodule`), the
doc-comment-following-assignment scanner (`_extract_var_docstrings`), the
error absorption in `Module.__init__` (source seeding and package-directory
sub-module discovery), the blank-line collapsing of `_tpl_text`, the method
ordering of `Function.__cmp__` / `Class.methods`, the class documentation
fill loop of `Class.__init__`, the parameter formatter `Function.params`,
and identifier resolution `Module.find_ident` / `External.text_ref`.

Python strings are modelled as Lean `String`s, but all operations on them
are defined here over `String.data` (lists of characters) so that every
definition evaluates by kernel reduction.  Python dictionaries are modelled
as association lists in insertion order, with assignment replacing the
value of an existing key in place (as CPython dict assignment does, up to
the unspecified iteration order, which the embedding fixes to insertion
order).  Exceptions are modelled with `Except` over an explicit error kind.
-/

namespace Pdoc

/-! ## Python string primitives (over `String.data`) -/

/-- Python `s.startswith(p)`: `p.data` is a prefix of `s.data`. -/
def pyStartsWith (s p : String) : Bool :=
  p.data.isPrefixOf s.data

/-- Python `s.endswith(p)`: `p.data` is a suffix of `s.data`. -/
def pyEndsWith (s p : String) : Bool :=
  p.data.isSuffixOf s.data

/-- Python `s.lower()` (ASCII case folding, which is all module names use). -/
def pyLower (s : String) : String :=
  String.mk (s.data.map Char.toLower)

/-- Python `s.count(c)` for a single-character needle. -/
def pyCount (s : String) (c : Char) : Nat :=
  (s.data.filter (fun x => x = c)).length

/-- Splitting a character list at every occurrence of `c` (no merging of
separators, empty pieces kept), as Python `str.split(c)` does for a
one-character separator. -/
def splitOnChar (c : Char) : List Char → List (List Char)
  | [] => [[]]
  | x :: xs =>
    let r := splitOnChar c xs
    if x = c then [] :: r
    else
      match r with
      | [] => [[x]]
      | y :: ys => (x :: y) :: ys

/-- Python `s.split(c)` for a one-character separator. -/
def pySplit (s : String) (c : Char) : List String :=
  (splitOnChar c s.data).map String.mk

/-- Python `sep.join(l)` for joining a list of strings. -/
def pyJoin (sep : String) : List String → String
  | [] => ""
  | [x] => x
  | x :: y :: ys => x ++ sep ++ pyJoin sep (y :: ys)

/-- Python `s.strip()`: remove leading and trailing whitespace. -/
def pyStrip (s : String) : String :=
  String.mk (((s.data.dropWhile Char.isWhitespace).reverse.dropWhile
    Char.isWhitespace).reverse)

/-- Python dictionary assignment `d[k] = v` on an insertion-ordered
association list: replace the value of an existing key in place, else
append the new binding at the end. -/
def dictInsert {β : Type} : List (String × β) → String → β → List (String × β)
  | [], k, v => [(k, v)]
  | (a, b) :: rest, k, v =>
    if a = k then (a, v) :: rest else (a, b) :: dictInsert rest k v

/-! ## Error kinds

`PyErr` enumerates the runtime exception classes that the embedded code
raises or catches: `TypeError` (raised by `inspect.getsource` for objects
with no source, caught at `Module.__init__` line 197 and `Class.__init__`
line 418), `IOError` (raised by `inspect.getsource` when the source file
cannot be read, caught at `Class.__init__` line 416 and at the
sub-module discovery loop line 240), and `ImportError` (raised by
`importlib.import_module` for an unimportable module, caught nowhere). -/

inductive PyErr where
  | typeError
  | ioError
  | importError
deriving DecidableEq

/-! ## Module public-member computation (C1, C2)

`PyObj` models exactly the facets of a runtime value that
`Module.__fetch_public_objs` consults: whether the value is a module
object, its `__name__` (meaningful for modules), and the `__name__` of
`inspect.getmodule(obj)` — the module the object was defined in (`none`
models `inspect.getmodule` returning `None`; for a module object
`inspect.getmodule` returns the object itself, so there `definedIn` is its
own name). -/

structure PyObj where
  isModule : Bool := false
  name : String := ""
  definedIn : Option String := none
deriving DecidableEq

/-- The `inspect.getmodule(obj)` call of `Module.__fetch_public_objs`,
returning the defining module's `__name__`. -/
def getmodule (o : PyObj) : Option String :=
  o.definedIn

/-- Module-level `_is_exported(ident_name)`: true iff the identifier does
not start with an underscore (line 118). -/
def _is_exported (ident_name : String) : Bool :=
  !pyStartsWith ident_name "_"

/-- `Module.is_submodule(module_obj)` (line 363): the other module's
lowercased `__name__` starts with this module's lowercased name plus a
dot. -/
def is_submodule (selfName module_name : String) : Bool :=
  pyStartsWith (pyLower module_name) (pyLower selfName ++ ".")

/-- `Module.is_exported(name, module)` (line 345): not underscored, and if
a defining module is supplied, it must be this module itself or one of its
sub-modules. -/
def is_exported (selfName name : String) (module : Option String) : Bool :=
  if !_is_exported name then false
  else
    match module with
    | some m => if selfName ≠ m ∧ !is_submodule selfName m then false else true
    | none => true

/-- The dict comprehension of the `__all__` branch of
`Module.__fetch_public_objs` (line 370): look each export name up among
the module's members; a missing name raises `KeyError`, modelled as
`none`. -/
def fetch_all_names (members : List (String × PyObj)) :
    List String → Option (List (String × PyObj))
  | [] => some []
  | n :: rest =>
    match members.lookup n, fetch_all_names members rest with
    | some o, some tail => some ((n, o) :: tail)
    | _, _ => none

/-- `Module.__fetch_public_objs` (line 367).  `members` is
`inspect.getmembers(self.module)` as an association list; the presence of
an `__all__` member with its list-of-names value is modelled by the
`all_list` option. -/
def fetch_public_objs (selfName : String) (members : List (String × PyObj))
    (all_list : Option (List String)) : Option (List (String × PyObj)) :=
  match all_list with
  | some names => fetch_all_names members names
  | none =>
    some (members.filter (fun p => is_exported selfName p.1 (getmodule p.2)))

/-! ## Doc-comment scanner (C3) -/

/-- Assignment targets as the scanner distinguishes them: `ast.Name`,
`ast.Attribute` (only the final component `attr` is consulted), and
anything else (for instance a tuple target), which the scanner skips. -/
inductive AstTarget where
  | name (id : String)
  | attr (a : String)
  | otherTarget
deriving DecidableEq

/-- Expression statements as the scanner distinguishes them: a bare string
literal (`ast.Str`, with its text) or anything else. -/
inductive AstExpr where
  | str (s : String)
  | otherExpr
deriving DecidableEq

/-- Immediate child statements of a scanned block: an assignment with its
target list, an expression statement, or anything else. -/
inductive AstStmt where
  | assign (targets : List AstTarget)
  | expr (value : AstExpr)
  | otherStmt
deriving DecidableEq

/-- The `ast.Name` / `ast.Attribute` target dispatch of
`_extract_var_docstrings` (lines 107–112): the bound name, or `none` for
the `continue` branch. -/
def target_name : AstTarget → Option String
  | .name id => some id
  | .attr a => some a
  | .otherTarget => none

/-- The loop-body test of `_extract_var_docstrings` at position `i`: the
documented pair produced there, if statement `i` is a single-target
assignment with a name or attribute target and statement `i+1` is a bare
string-literal expression statement. -/
def docPairAt (children : List AstStmt) (i : Nat) : Option (String × String) :=
  match children[i]?, children[i + 1]? with
  | some (.assign [t]), some (.expr (.str d)) =>
    match target_name t with
    | some nm => some (nm, d)
    | none => none
  | _, _ => none

/-- `_extract_var_docstrings(module, ast_tree)` (line 98), as the map from
identifier to the docstring passed to the created `Variable` (the
normalization `inspect.cleandoc` applied later inside `Doc.__init__`, line
143, is outside the scanner). -/
def _extract_var_docstrings (children : List AstStmt) : List (String × String) :=
  (List.range children.length).foldl
    (fun vs i =>
      match docPairAt children i with
      | some p => dictInsert vs p.1 p.2
      | none => vs)
    []

/-! ## Module source seeding (C4) -/

/-- Lines 192–198 of `Module.__init__`: `self.doc` starts as `{}`, then
`self.doc = _fetch_var_docstrings(...)` runs under
`try: ... except TypeError: pass`.  The argument is the outcome of
`_fetch_var_docstrings` (its `inspect.getsource` raises `TypeError` for
built-in modules and `IOError` when the source file cannot be read); the
result is the state of `self.doc` afterwards, or the propagated error. -/
def module_seed_doc (fetched : Except PyErr (List (String × String))) :
    Except PyErr (List (String × String)) :=
  match fetched with
  | .ok vs => .ok vs
  | .error .typeError => .ok []
  | .error e => .error e

/-! ## Package directory discovery (C5) -/

/-- The root of `os.path.splitext(f)`: everything before the last dot, or
the whole name when there is none.  (Python's special treatment of a
leading dot never applies here: hidden files are filtered out before
`splitext` is reached.) -/
def pySplitextRoot (f : String) : String :=
  match f.data.reverse.dropWhile (fun c => c ≠ '.') with
  | [] => f
  | _ :: rest => String.mk rest.reverse

/-- The package-directory loop of `Module.__init__` (lines 231–242).
`imp fullname` models `Module(importlib.import_module(fullname))`,
returning the new documentation object's `name` (`m.name`) or the raised
error; only `IOError` is caught (`except IOError: continue`, line 240).
`docKeys` is the key set of `self.doc`, which the loop both consults
(`root in self.doc`) and extends (`self.doc[m.name] = m`); the result is
the final key list, or the error that aborted the loop. -/
def submodule_scan (selfName : String) (imp : String → Except PyErr String) :
    List String → List String → Except PyErr (List String)
  | docKeys, [] => .ok docKeys
  | docKeys, f :: rest =>
    if !pyEndsWith f ".py" ∨ pyStartsWith f "." then
      submodule_scan selfName imp docKeys rest
    else if pySplitextRoot f = "__init__" ∨ pySplitextRoot f ∈ docKeys then
      submodule_scan selfName imp docKeys rest
    else
      match imp (selfName ++ "." ++ pySplitextRoot f) with
      | .ok mname => submodule_scan selfName imp (docKeys ++ [mname]) rest
      | .error .ioError => submodule_scan selfName imp docKeys rest
      | .error e => .error e

/-! ## Text-template blank-line collapsing (C6) -/

/-- Emission of a completed run of `n` newline characters: a run of four
or more newlines is replaced by exactly three, a shorter run is kept. -/
def emitNlRun (n : Nat) (rest : List Char) : List Char :=
  List.replicate (if 4 ≤ n then 3 else n) '\n' ++ rest

/-- The substitution `re.subn('\n\n\n\n+', '\n\n\n', s)` of `_tpl_text`
(line 90), processed with the count of the pending newline run: the regex
scanner replaces each maximal run of four or more newline characters
(greedy `+`) by exactly three newlines and leaves shorter runs alone. -/
def collapseAux : Nat → List Char → List Char
  | n, [] => emitNlRun n []
  | n, c :: cs =>
    if c = '\n' then collapseAux (n + 1) cs
    else emitNlRun n (c :: collapseAux 0 cs)

/-- The substitution `re.subn('\n\n\n\n+', '\n\n\n', s)` of `_tpl_text`
(line 90) over a character list. -/
def collapseChars (l : List Char) : List Char :=
  collapseAux 0 l

/-- The post-processing that `_tpl_text` applies to the rendered template
text (the `re.subn` of line 90, after the `strip()`). -/
def _tpl_text_collapse (s : String) : String :=
  String.mk (collapseChars s.data)

/-! ## Method ordering (C7) -/

/-- Python 2 `cmp` on two integers: negative, zero or positive. -/
def pycmpInt (a b : Int) : Int :=
  if a < b then -1 else if a = b then 0 else 1

/-- Byte-wise lexicographic `<` on strings, as Python 2 compares
(byte) strings. -/
def strLt : List Char → List Char → Bool
  | [], [] => false
  | [], _ :: _ => true
  | _ :: _, [] => false
  | a :: as, b :: bs =>
    if a.toNat < b.toNat then true
    else if b.toNat < a.toNat then false
    else strLt as bs

/-- Python 2 `cmp` on two strings. -/
def pycmpStr (a b : String) : Int :=
  if strLt a.data b.data then -1 else if a = b then 0 else 1

/-- `Function.__cmp__` (line 529), as a three-way comparison on the two
function names: `__new__` is pushed to the top, then `__init__`, and all
other names compare alphabetically. -/
def Function.cmp (a b : String) : Int :=
  if a = "__new__" ∨ b = "__new__" then
    pycmpInt (if a = "__new__" then 0 else 1) (if b = "__new__" then 0 else 1)
  else if a = "__init__" ∨ b = "__init__" then
    pycmpInt (if a = "__init__" then 0 else 1) (if b = "__init__" then 0 else 1)
  else pycmpStr a b

/-- The `sorted(vs)` of `Class.methods` (line 463) on the method names:
Python 2 `sorted` is a stable comparison sort driven by the elements'
`__cmp__`, modelled by a stable insertion sort with `cmp ≤ 0` as the
before-or-equal test. -/
def Class.methodsSorted (names : List String) : List String :=
  List.insertionSort (fun a b => Function.cmp a b ≤ 0) names

/-- Tier that the specification assigns to a method name: the
allocation constructor first, the initialization constructor next, every
other name after them.  Stated from the specification's words, for
comparison with `Function.cmp`. -/
def methodTier (n : String) : Nat :=
  if n = "__new__" then 0 else if n = "__init__" then 1 else 2

/-- The ordering described by the specification: by tier, then
alphabetically by name.  Stated from the specification's words, for
comparison with `Function.cmp`. -/
def specMethodLE (a b : String) : Prop :=
  methodTier a < methodTier b ∨
    (methodTier a = methodTier b ∧ (strLt a.data b.data = true ∨ a = b))

/-! ## Class documentation fill loop (C8) -/

/-- The facets of a class member that the fill loop of `Class.__init__`
(lines 421–432) consults: `inspect.ismethod`, `inspect.isbuiltin` and
`inspect.isroutine` of the member object. -/
structure ClsMember where
  ismethod : Bool
  isbuiltin : Bool
  isroutine : Bool
deriving DecidableEq

/-- An entry of `Class.doc`: a `Variable` with its docstring (as produced
by the scanner, or the empty-comment placeholder), or a `Function`. -/
inductive ClsDocEntry where
  | var (docstring : String)
  | func
deriving DecidableEq

/-- `Doc.is_empty` (line 149) for a class documentation entry: a variable
entry is empty iff its docstring strips to nothing.  (A `Function` entry's
emptiness is its own docstring's; the fill loop only ever consults
emptiness of entries seeded by the scanner, which are variables, since
`public` iterates each key once.) -/
def entry_is_empty : ClsDocEntry → Bool
  | .var s => pyStrip s = ""
  | .func => false

/-- `Class.__fetch_public_objs`'s `exported` test (line 466): `__init__`
and `__new__` unconditionally, otherwise no leading underscore. -/
def cls_exported (name : String) : Bool :=
  name = "__init__" ∨ name = "__new__" ∨ _is_exported name

/-- One iteration of the fill loop of `Class.__init__` (lines 421–432):
skip members already documented with a non-empty comment; a method member
becomes a `Function`; a member that is neither natively implemented nor a
routine becomes an empty-comment `Variable`; anything else is left
undocumented. -/
def class_fill_step (doc : List (String × ClsDocEntry)) (name : String)
    (obj : ClsMember) : List (String × ClsDocEntry) :=
  if (match doc.lookup name with
      | some e => !entry_is_empty e
      | none => false) then doc
  else if obj.ismethod then dictInsert doc name .func
  else if !obj.isbuiltin && !obj.isroutine then dictInsert doc name (.var "")
  else doc

/-- The whole fill loop of `Class.__init__` over `self.public`, starting
from the scanner-seeded `self.doc`. -/
def class_fill_doc (pub : List (String × ClsMember))
    (doc0 : List (String × ClsDocEntry)) : List (String × ClsDocEntry) :=
  pub.foldl (fun d p => class_fill_step d p.1 p.2) doc0

/-! ## Parameter formatting (C9) -/

/-- An element of `inspect.getargspec(...).args`: a plain parameter name,
or (for the legacy nested-tuple calling convention) a nested list of
parameters. -/
inductive Param where
  | name (s : String)
  | tuple (els : List Param)

mutual

/-- `fmt_param` of `Function.params` (line 505): a plain name is itself, a
nested parameter list is parenthesized and comma-joined recursively. -/
def Param.fmt : Param → String
  | .name s => s
  | .tuple els => "(" ++ pyJoin ", " (Param.fmtList els) ++ ")"

/-- The `map(fmt_param, el)` of `fmt_param`. -/
def Param.fmtList : List Param → List String
  | [] => []
  | p :: ps => Param.fmt p :: Param.fmtList ps

end

mutual

/-- Python `repr` of an argument-list element, used by `%s` on a nested
list (a list's `str` is its `repr`). -/
def Param.pyrepr : Param → String
  | .name s => "'" ++ s ++ "'"
  | .tuple els => "[" ++ pyJoin ", " (Param.pyreprList els) ++ "]"

/-- `repr` of each element of a nested argument list. -/
def Param.pyreprList : List Param → List String
  | [] => []
  | p :: ps => Param.pyrepr p :: Param.pyreprList ps

end

/-- The `'%s' % param` rendering in the defaulted branch of
`Function.params` (line 520): a plain name formats as itself; a nested
list formats as Python's list display. -/
def Param.pystr : Param → String
  | .name s => s
  | .tuple els => "[" ++ pyJoin ", " (Param.pyreprList els) ++ "]"

/-- The named tuple returned by `inspect.getargspec`: positional argument
names (possibly nested), the variadic-positional and variadic-keyword
names, and the trailing default values.  A default value is carried as its
`%s` rendering (`str` of the value), which is all `Function.params` uses
of it. -/
structure ArgSpec where
  args : List Param
  varargs : Option String
  keywords : Option String
  defaults : Option (List String)

/-- `Function.params` (line 499).  `none` models `inspect.getargspec`
raising `TypeError` (natively implemented callables), giving the
placeholder list; otherwise parameter `i` is rendered `name=default` when
`len(args) - i <= len(defaults)` with `defaults[len(defaults) - (len(args) - i)]`,
else through `fmt_param`, and the variadic markers are appended. -/
def Function.params (spec : Option ArgSpec) : List String :=
  match spec with
  | none => ["..."]
  | some s =>
    let base := (List.range s.args.length).map (fun i =>
      let param := s.args.getD i (Param.name "")
      match s.defaults with
      | some ds =>
        if s.args.length - i ≤ ds.length then
          Param.pystr param ++ "=" ++ ds.getD (ds.length - (s.args.length - i)) ""
        else Param.fmt param
      | none => Param.fmt param)
    let withVar :=
      match s.varargs with
      | some v => base ++ ["*" ++ v]
      | none => base
    match s.keywords with
    | some k => withVar ++ ["**" ++ k]
    | none => withVar

/-! ## Identifier resolution (C10) -/

/-- The documentation-entity tree as `Module.find_ident` walks it: a
module node with its name and `doc` mapping, the non-module entity kinds
(whose internals resolution never inspects beyond identity), and the
`External` placeholder. -/
inductive PDocObj where
  | module (name : String) (doc : List (String × PDocObj))
  | cls (name : String)
  | func (name : String)
  | var (name : String)
  | external (name : String)

/-- `External.text_ref` (line 563): `'%s (ext)' % self.name`. -/
def External.text_ref (name : String) : String :=
  name ++ " (ext)"

/-- `Module.find_ident(name)` (line 275).  A bare name is looked up in
this module's `doc`; a dotted name must start with this module's own name
or resolves to `External`; when the dot counts match, the final component
is looked up here; otherwise the matching sub-module's resolver is handed
the name.  Calling it on a non-module node (whose class has no
`find_ident`) is the `AttributeError` case, modelled as `.error ()`. -/
def find_ident : PDocObj → String → Except Unit PDocObj
  | .module selfName doc, ident =>
    let pieces := pySplit ident '.'
    if pieces.length = 1 then
      .ok ((doc.lookup ident).getD (.external ident))
    else if !pyStartsWith ident selfName then
      .ok (.external ident)
    else if pyCount selfName '.' + 1 = pyCount ident '.' then
      .ok ((doc.lookup (pieces.getLastD "")).getD (.external ident))
    else
      let parts := pyCount selfName '.' + 1
      if pieces.length < parts + 1 then
        .ok (.external ident)
      else
        let subname := pyJoin "." (pieces.take (parts + 1))
        match h : doc.lookup subname with
        | some sub => find_ident sub ident
        | none => .ok (.external ident)
  | .cls _, _ | .func _, _ | .var _, _ | .external _, _ => .error ()
termination_by o _ => sizeOf o
decreasing_by
  have hsz : ∀ (l : List (String × PDocObj)) k v, l.lookup k = some v →
      sizeOf v < sizeOf l := by
    intro l
    induction l with
    | nil => intro k v hkv; simp [List.lookup] at hkv
    | cons p rest ih =>
      intro k v hkv
      rcases p with ⟨a, b⟩
      simp only [List.lookup] at hkv
      by_cases hk : k == a
      · simp [hk] at hkv
        subst hkv
        simp
        omega
      · simp [hk] at hkv
        have := ih _ _ hkv
        simp
        omega
  have := hsz doc subname sub h
  simp
  omega

/-! ## Theorems -/

theorem is_exported_iff (selfName n : String) (mo : Option String) :
    is_exported selfName n mo = true ↔
      (pyStartsWith n "_" = false ∧
        ∀ m, mo = some m → (selfName = m ∨ is_submodule selfName m = true)) := by
  cases mo with
  | none =>
    simp only [is_exported, _is_exported]
    by_cases hu : pyStartsWith n "_" <;> simp [hu]
  | some m =>
    simp only [is_exported, _is_exported]
    by_cases hu : pyStartsWith n "_" <;>
      by_cases he : selfName = m <;>
      by_cases hs : is_submodule selfName m <;>
      simp [hu, he, hs]

/-- C1: for a module declaring an explicit export list `__all__`, the keys
of `Module.public` (here: the association list returned by
`fetch_public_objs` when it succeeds) are exactly the names of that list —
every listed name is a key and no unlisted name is, regardless of
underscore prefixes in the list or public-looking names omitted from
it. -/
theorem module_public_eq_all (selfName : String) (members : List (String × PyObj))
    (names : List String) (pub : List (String × PyObj))
    (h : fetch_public_objs selfName members (some names) = some pub) :
    ∀ n, n ∈ pub.map Prod.fst ↔ n ∈ names := by
  simp only [fetch_public_objs] at h
  induction names generalizing pub with
  | nil =>
    simp only [fetch_all_names] at h
    cases h
    simp
  | cons a rest ih =>
    simp only [fetch_all_names] at h
    cases hl : members.lookup a with
    | none => rw [hl] at h; cases hr : fetch_all_names members rest <;> rw [hr] at h <;> cases h
    | some o =>
      rw [hl] at h
      cases hr : fetch_all_names members rest with
      | none => rw [hr] at h; cases h
      | some tail =>
        rw [hr] at h
        cases h
        intro n
        have := ih tail hr n
        simp only [List.map_cons, List.mem_cons]
        rw [this]

/-- Witness for C1 at a concrete module: export list `["_a", "b"]` among
members `_a, b, c`; the underscored listed name is a key, the
public-looking omitted name `c` is not. -/
theorem module_public_eq_all_witness :
    fetch_public_objs "m" [("_a", {}), ("b", {}), ("c", {})] (some ["_a", "b"]) =
      some [("_a", {}), ("b", {})] ∧
    ("_a" ∈ (([("_a", {}), ("b", {})] : List (String × PyObj))).map Prod.fst ↔
      "_a" ∈ ["_a", "b"]) ∧
    ("c" ∈ (([("_a", {}), ("b", {})] : List (String × PyObj))).map Prod.fst ↔
      "c" ∈ ["_a", "b"]) :=
  ⟨by decide,
    module_public_eq_all "m" [("_a", {}), ("b", {}), ("c", {})] ["_a", "b"] _ (by decide) "_a",
    module_public_eq_all "m" [("_a", {}), ("b", {}), ("c", {})] ["_a", "b"] _ (by decide) "c"⟩

/-- C2 counterexample: the claim states that, without `__all__`, only the
underscore rule and the sub-module rule for module-valued names exclude a
name.  But `Module.__fetch_public_objs` passes `inspect.getmodule(obj)`
for every value: the non-module value `g` (a function defined in unrelated
module `bar`) satisfies the claim's condition — no underscore, not a
module object — yet is excluded from the public set of module `foo`. -/
theorem heuristic_public_claim_counterexample :
    ¬ ((("g", ({ definedIn := some "bar" } : PyObj)) ∈
          (fetch_public_objs "foo" [("g", { definedIn := some "bar" })] none).getD []) ↔
        ((("g", ({ definedIn := some "bar" } : PyObj)) ∈
            ([("g", ({ definedIn := some "bar" } : PyObj))] : List (String × PyObj))) ∧
          pyStartsWith "g" "_" = false ∧
          (({ definedIn := some "bar" } : PyObj).isModule = true →
            is_submodule "foo" ({ definedIn := some "bar" } : PyObj).name = true))) := by
  decide

/-- C2 (amended): without `__all__`, a binding `(n, o)` of the module is
public iff `n` has no leading underscore and, whenever the defining module
of `o` reported by `inspect.getmodule` is known (for a module object that
is the module itself), that defining module is the documented module
itself or a sub-module of it (lowercased qualified name extending this
module's name plus a dot).  Values with no known defining module are never
excluded. -/
theorem heuristic_public_mem_iff (selfName n : String) (o : PyObj)
    (members : List (String × PyObj)) :
    ∃ pub, fetch_public_objs selfName members none = some pub ∧
      ((n, o) ∈ pub ↔
        ((n, o) ∈ members ∧ pyStartsWith n "_" = false ∧
          ∀ m, o.definedIn = some m →
            (selfName = m ∨ is_submodule selfName m = true))) := by
  refine ⟨_, rfl, ?_⟩
  simp [List.mem_filter, getmodule, is_exported_iff]

/-- C3: in a scanned statement block, position `i` yields a documented
variable — bound to the target's final identifier component, with comment
equal to the following string literal's text — exactly when statement `i`
is a single-target assignment to a name or attribute target and statement
`i+1` is a bare string-literal expression statement.  Tuple and
multi-target assignments and other target forms yield nothing, and a
string literal not immediately adjacent to its assignment is not
attributed to it.  `docPairAt` is the loop body of
`_extract_var_docstrings`, which folds exactly these pairs into its
result map. -/
theorem scanner_pair_iff (children : List AstStmt) (i : Nat) (nm d : String) :
    docPairAt children i = some (nm, d) ↔
      ∃ t, children[i]? = some (.assign [t]) ∧ target_name t = some nm ∧
        children[i + 1]? = some (.expr (.str d)) := by
  cases h1 : children[i]? with
  | none => simp [docPairAt, h1]
  | some s =>
    cases s with
    | assign ts =>
      cases ts with
      | nil => simp [docPairAt, h1]
      | cons t rest =>
        cases rest with
        | nil =>
          cases h2 : children[i + 1]? with
          | none => simp [docPairAt, h1, h2]
          | some s2 =>
            cases s2 with
            | expr v =>
              cases v with
              | str ds => cases t <;> simp [docPairAt, h1, h2, target_name]
              | otherExpr => simp [docPairAt, h1, h2]
            | assign ts2 => simp [docPairAt, h1, h2]
            | otherStmt => simp [docPairAt, h1, h2]
        | cons t2 rest2 => simp [docPairAt, h1]
    | expr v => simp [docPairAt, h1]
    | otherStmt => simp [docPairAt, h1]

/-- C3 witness: a single-target assignment immediately followed by a bare
string literal produces its pair. -/
theorem scanner_pair_iff_witness :
    docPairAt [.assign [.name "x"], .expr (.str "doc")] 0 = some ("x", "doc") :=
  (scanner_pair_iff [.assign [.name "x"], .expr (.str "doc")] 0 "x" "doc").mpr
    ⟨.name "x", by decide, by decide, by decide⟩

/-- C4 counterexample: `Module.__init__` only absorbs `TypeError` from the
source-seeding step (line 197), so a module whose source scan fails with
`IOError` (a source file that cannot be read, the error `inspect.getsource`
raises and which `Class.__init__` does catch at line 416) does NOT degrade
to an empty seeded map: construction fails with the propagated error. -/
theorem module_seed_doc_claim_counterexample :
    module_seed_doc (Except.error PyErr.ioError) ≠ Except.ok [] := by
  intro h
  simp [module_seed_doc] at h

/-- C4 (amended): when obtaining the module's source for the doc-comment
scan fails with `TypeError`, the failure is absorbed and the seeded
variable-documentation map is left empty, so construction continues with
reflection alone; a failure raising `IOError` instead propagates and
Module construction fails. -/
theorem module_seed_doc_amended :
    module_seed_doc (Except.error PyErr.typeError) = Except.ok [] ∧
    module_seed_doc (Except.error PyErr.ioError) = Except.error PyErr.ioError :=
  ⟨rfl, rfl⟩

/-- C5 counterexample: the package-directory loop of `Module.__init__`
catches only `IOError` (line 240), so a discovered file whose import
raises `ImportError` is NOT swallowed and omitted: the scan — and with it
Module construction — aborts with the error instead of returning the
remaining members. -/
theorem submodule_scan_claim_counterexample :
    submodule_scan "p" (fun _ => Except.error PyErr.importError) [] ["m.py"] =
        Except.error PyErr.importError ∧
    submodule_scan "p" (fun _ => Except.error PyErr.importError) [] ["m.py"] ≠
        Except.ok [] :=
  ⟨rfl, fun h => Except.noConfusion h⟩

/-- C5 (amended): during package directory discovery, a file that is not a
`.py` file, is hidden, is the package initializer, or whose module name
already exists among the current members is never documented again — it
contributes nothing to the scan; and a discovered file whose import or
documentation raises `IOError` is swallowed, the file being omitted
from the result.  (Import failures of other kinds, such as `ImportError`,
propagate and abort construction.) -/
theorem submodule_scan_amended :
    (∀ (selfName : String) (imp : String → Except PyErr String)
        (docKeys : List String) (f : String) (rest : List String),
        (pyEndsWith f ".py" = false ∨ pyStartsWith f "." = true ∨
          pySplitextRoot f = "__init__" ∨ pySplitextRoot f ∈ docKeys) →
        submodule_scan selfName imp docKeys (f :: rest) =
          submodule_scan selfName imp docKeys rest) ∧
    (∀ (selfName : String) (imp : String → Except PyErr String)
        (docKeys : List String) (f : String) (rest : List String),
        imp (selfName ++ "." ++ pySplitextRoot f) = Except.error PyErr.ioError →
        submodule_scan selfName imp docKeys (f :: rest) =
          submodule_scan selfName imp docKeys rest) := by
  constructor
  · intro selfName imp docKeys f rest hskip
    simp only [submodule_scan]
    split
    · rfl
    · split
      · rfl
      · rename_i hf hroot
        simp only [not_or] at hf hroot
        rcases hskip with h | h | h | h
        · simp [h] at hf
        · simp [h] at hf
        · exact absurd h hroot.1
        · exact absurd h hroot.2
  · intro selfName imp docKeys f rest himp
    simp only [submodule_scan]
    split
    · rfl
    · split
      · rfl
      · rw [himp]

/-- C5 witness: a file whose module name is already documented is skipped,
and a file whose import raises `IOError` is omitted; in both cases the
scan of the remaining files is unchanged. -/
theorem submodule_scan_amended_witness :
    (pySplitextRoot "m.py" ∈ ["m"]) ∧
    submodule_scan "p" (fun n => Except.ok n) ["m"] ["m.py"] =
      submodule_scan "p" (fun n => Except.ok n) ["m"] [] ∧
    submodule_scan "p" (fun _ => Except.error PyErr.ioError) [] ["q.py"] =
      submodule_scan "p" (fun _ => Except.error PyErr.ioError) [] [] :=
  ⟨by decide,
    submodule_scan_amended.1 "p" (fun n => Except.ok n) ["m"] "m.py" []
      (Or.inr (Or.inr (Or.inr (by decide)))),
    submodule_scan_amended.2 "p" (fun _ => Except.error PyErr.ioError) [] "q.py" [] rfl⟩

theorem collapseAux_cons_nl (n : Nat) (l : List Char) :
    collapseAux n ('\n' :: l) = collapseAux (n + 1) l := by
  simp [collapseAux]

theorem collapseAux_cons_ne (n : Nat) (c : Char) (l : List Char) (h : c ≠ '\n') :
    collapseAux n (c :: l) = emitNlRun n (c :: collapseAux 0 l) := by
  simp [collapseAux, h]

theorem collapseAux_replicate (k n : Nat) (l : List Char) :
    collapseAux n (List.replicate k '\n' ++ l) = collapseAux (n + k) l := by
  induction k generalizing n with
  | zero => simp
  | succ k ih =>
    rw [List.replicate_succ, List.cons_append, collapseAux_cons_nl, ih]
    congr 1
    omega

/-- C6 counterexample: the text-rendering substitution replaces every run
of FOUR or more newline characters by three; `"a\n\n\n\nb"` contains a run
of exactly three blank lines (four newlines), which the claim says is left
unchanged, yet the rendering path collapses it to two blank lines. -/
theorem tpl_text_collapse_claim_counterexample :
    _tpl_text_collapse "a\n\n\n\nb" = "a\n\n\nb" ∧
    _tpl_text_collapse "a\n\n\n\nb" ≠ "a\n\n\n\nb" := by
  exact ⟨by decide, by decide⟩

/-- C6 (amended): in the string produced by the text-rendering path, every
run of three or more consecutive blank lines (four or more newline
characters) is collapsed to exactly two blank lines (three newlines), and
every run of one or two blank lines is left unchanged.  `b` counts the
blank lines of a maximal run flanked by non-newline characters. -/
theorem tpl_text_collapse_amended (x y : Char) (b : Nat)
    (hx : x ≠ '\n') (hy : y ≠ '\n') :
    _tpl_text_collapse (String.mk (x :: (List.replicate (b + 1) '\n' ++ [y]))) =
      String.mk (x :: (List.replicate ((if 3 ≤ b then 2 else b) + 1) '\n' ++ [y])) := by
  show String.mk (collapseAux 0 _) = _
  congr 1
  rw [collapseAux_cons_ne 0 x _ hx]
  simp only [emitNlRun, if_neg (by omega : ¬ 4 ≤ 0), List.replicate_zero, List.nil_append]
  congr 1
  rw [collapseAux_replicate]
  rw [show ([y] : List Char) = y :: [] from rfl, collapseAux_cons_ne _ y _ hy]
  simp only [collapseAux, emitNlRun, Nat.zero_add, if_neg (by omega : ¬ 4 ≤ 0),
    List.replicate_zero, List.nil_append, List.append_nil]
  by_cases hb : 3 ≤ b
  · rw [if_pos (by omega : 4 ≤ b + 1), if_pos hb]
  · rw [if_neg (by omega : ¬ 4 ≤ b + 1), if_neg hb]

/-- C6 witness: a run of four blank lines between `a` and `b` collapses to
two blank lines. -/
theorem tpl_text_collapse_amended_witness :
    ('a' : Char) ≠ '\n' ∧
    _tpl_text_collapse (String.mk ('a' :: (List.replicate (4 + 1) '\n' ++ ['b']))) =
      String.mk ('a' :: (List.replicate ((if 3 ≤ 4 then 2 else 4) + 1) '\n' ++ ['b'])) :=
  ⟨by decide, tpl_text_collapse_amended 'a' 'b' 4 (by decide) (by decide)⟩

/-- C7: the comparison driving the sorted method listing of a class
coincides with the ordering "`__new__` first, `__init__` next, all other
methods alphabetically by name": `Function.__cmp__` puts `a` before-or-at
`b` exactly when `a`'s constructor tier is lower, or the tiers agree and
`a` is alphabetically at-or-before `b`.  In particular methods named
`zeta, __init__, alpha, __new__` sort to `__new__, __init__, alpha,
zeta`. -/
theorem function_cmp_sort_order :
    (∀ a b : String, Function.cmp a b ≤ 0 ↔ specMethodLE a b) ∧
    Class.methodsSorted ["zeta", "__init__", "alpha", "__new__"] =
      ["__new__", "__init__", "alpha", "zeta"] := by
  constructor
  · intro a b
    by_cases ha : a = "__new__" <;> by_cases hb : b = "__new__" <;>
      by_cases ha2 : a = "__init__" <;> by_cases hb2 : b = "__init__" <;>
      by_cases hlt : strLt a.data b.data <;> by_cases heq : a = b <;>
      simp_all [Function.cmp, pycmpInt, pycmpStr, specMethodLE, methodTier]
  · decide

theorem mem_keys_dictInsert {β : Type} (d : List (String × β)) (k n : String) (v : β) :
    n ∈ (dictInsert d k v).map Prod.fst ↔ n = k ∨ n ∈ d.map Prod.fst := by
  induction d with
  | nil => simp [dictInsert]
  | cons p rest ih =>
    rcases p with ⟨a, b⟩
    by_cases h : a = k <;> simp [dictInsert, h, ih] <;> tauto

theorem lookup_some_mem_keys {β : Type} (d : List (String × β)) (k : String) (v : β)
    (h : d.lookup k = some v) : k ∈ d.map Prod.fst := by
  induction d with
  | nil => simp [List.lookup] at h
  | cons p rest ih =>
    rcases p with ⟨a, b⟩
    simp only [List.lookup] at h
    by_cases hk : k == a
    · simp_all
    · simp only [hk, Bool.false_eq_true, if_neg] at h
      simp [ih h]

theorem class_fill_step_keys_mono (d : List (String × ClsDocEntry)) (nm n : String)
    (o : ClsMember) (h : n ∈ d.map Prod.fst) :
    n ∈ (class_fill_step d nm o).map Prod.fst := by
  unfold class_fill_step
  split_ifs <;>
    first
      | exact h
      | exact (mem_keys_dictInsert _ _ _ _).mpr (Or.inr h)

theorem class_fill_doc_keys_mono (pub : List (String × ClsMember))
    (doc0 : List (String × ClsDocEntry)) (n : String) (h : n ∈ doc0.map Prod.fst) :
    n ∈ (class_fill_doc pub doc0).map Prod.fst := by
  induction pub generalizing doc0 with
  | nil => exact h
  | cons p rest ih =>
    exact ih _ (class_fill_step_keys_mono _ _ _ _ h)

theorem class_fill_step_self (d : List (String × ClsDocEntry)) (nm : String)
    (o : ClsMember)
    (hcond : o.ismethod = true ∨ (o.isbuiltin = false ∧ o.isroutine = false) ∨
      nm ∈ d.map Prod.fst) :
    nm ∈ (class_fill_step d nm o).map Prod.fst := by
  unfold class_fill_step
  split_ifs with h1 h2 h3
  · cases hl : d.lookup nm with
    | none => rw [hl] at h1; cases h1
    | some e => exact lookup_some_mem_keys _ _ _ hl
  · exact (mem_keys_dictInsert _ _ _ _).mpr (Or.inl rfl)
  · exact (mem_keys_dictInsert _ _ _ _).mpr (Or.inl rfl)
  · rcases hcond with h | h | h
    · exact absurd h h2
    · exact absurd (by simp [h.1, h.2]) h3
    · exact h

/-- C8 counterexample: the fill loop of `Class.__init__` documents a
member only when it is a method or is neither natively implemented nor a
routine.  An exported member bound to a built-in (natively implemented)
non-method — e.g. the `__new__` inherited from `object`, which
`Class.__fetch_public_objs` always includes — therefore never appears in
the class's documentation map, contradicting the claim that every
exported name appears. -/
theorem class_fill_doc_claim_counterexample :
    cls_exported "__new__" = true ∧
    ¬ "__new__" ∈
        (class_fill_doc [("__new__", ClsMember.mk false true true)] []).map Prod.fst := by
  exact ⟨by decide, by decide⟩

/-- C8 (amended): after Class construction, every name in the exported
member set that is a method member, or is neither natively implemented nor
a routine, or already carries a scanner-discovered comment, appears in the
class's documentation map (methods as `Function` entries, other documented
members as `Variable` entries, with an empty-comment `Variable` as the
placeholder for undocumented non-routine members); natively implemented or
non-method routine members without a discovered comment are omitted. -/
theorem class_fill_doc_amended (pub : List (String × ClsMember))
    (doc0 : List (String × ClsDocEntry)) (nm : String) (obj : ClsMember)
    (hmem : (nm, obj) ∈ pub)
    (hcond : obj.ismethod = true ∨ (obj.isbuiltin = false ∧ obj.isroutine = false) ∨
      nm ∈ doc0.map Prod.fst) :
    nm ∈ (class_fill_doc pub doc0).map Prod.fst := by
  induction pub generalizing doc0 with
  | nil => cases hmem
  | cons p rest ih =>
    rcases List.mem_cons.mp hmem with heq | hrest
    · subst heq
      exact class_fill_doc_keys_mono rest _ nm (class_fill_step_self doc0 nm obj hcond)
    · refine ih (class_fill_step doc0 p.1 p.2) hrest ?_
      rcases hcond with h | h | h
      · exact Or.inl h
      · exact Or.inr (Or.inl h)
      · exact Or.inr (Or.inr (class_fill_step_keys_mono _ _ _ _ h))

/-- C8 witness: an exported method member with no prior documentation is
entered into the map. -/
theorem class_fill_doc_amended_witness :
    (("run", ClsMember.mk true false true) ∈ [("run", ClsMember.mk true false true)]) ∧
    "run" ∈ (class_fill_doc [("run", ClsMember.mk true false true)] []).map Prod.fst :=
  ⟨by decide,
    class_fill_doc_amended [("run", ClsMember.mk true false true)] [] "run"
      (ClsMember.mk true false true) (by decide) (Or.inl rfl)⟩

/-- C9: a function whose introspected positional parameters are
`a, b, c` with trailing defaults `10, 20` formats its parameter list as
exactly `a, b=10, c=20`; in general, parameter `i` of a declared list is
rendered `name=default` exactly when it lies among the trailing
parameters matched in order to the declared defaults
(`len(args) - i <= len(defaults)`), and as the bare name otherwise. -/
theorem function_params_defaults :
    Function.params (some (ArgSpec.mk [.name "a", .name "b", .name "c"] none none
        (some ["10", "20"]))) = ["a", "b=10", "c=20"] ∧
    ∀ (names ds : List String) (i : Nat), i < names.length →
      (Function.params (some (ArgSpec.mk (names.map Param.name) none none
          (some ds)))).getD i "" =
        if names.length - i ≤ ds.length then
          names.getD i "" ++ "=" ++ ds.getD (ds.length - (names.length - i)) ""
        else names.getD i "" := by
  constructor
  · rfl
  · intro names ds i hi
    simp only [Function.params, List.length_map]
    rw [List.getD_eq_getElem?_getD, List.getElem?_map, List.getElem?_range hi]
    simp only [Option.map_some', Option.getD_some]
    have hm : (names.map Param.name).getD i (Param.name "") =
        Param.name (names.getD i "") := by
      rw [List.getD_eq_getElem?_getD, List.getElem?_map,
        List.getD_eq_getElem?_getD]
      cases names[i]? <;> rfl
    rw [hm]
    split <;> rfl

/-- C9 witness: parameter 1 of `a, b, c` with defaults `10, 20` lies among
the trailing defaulted parameters and is rendered `b=10`. -/
theorem function_params_defaults_witness :
    (1 < 3) ∧
    (Function.params (some (ArgSpec.mk (["a", "b", "c"].map Param.name) none none
        (some ["10", "20"])))).getD 1 "" = "b=10" := by
  refine ⟨by decide, ?_⟩
  have h := function_params_defaults.2 ["a", "b", "c"] ["10", "20"] 1 (by decide)
  rw [h]
  decide

/-- C10: for any module and any dotted identifier that does not lie under
the module's own qualified-name prefix, `Module.find_ident` returns an
`External` entity, and an `External`'s text-reference is its name followed
by the unresolved marker, so it ends with `" (ext)"`. -/
theorem find_ident_external (selfName ident : String) (doc : List (String × PDocObj))
    (h1 : 2 ≤ (pySplit ident '.').length)
    (h2 : pyStartsWith ident selfName = false) :
    find_ident (.module selfName doc) ident = .ok (.external ident) ∧
    External.text_ref ident = ident ++ " (ext)" := by
  refine ⟨?_, rfl⟩
  rw [find_ident]
  have hne : ¬ (pySplit ident '.').length = 1 := by omega
  simp [hne, h2]

/-- C10 witness: resolving `bar.baz` from module `foo` yields the external
placeholder. -/
theorem find_ident_external_witness :
    2 ≤ (pySplit "bar.baz" '.').length ∧
    find_ident (.module "foo" []) "bar.baz" = .ok (.external "bar.baz") ∧
    External.text_ref "bar.baz" = "bar.baz" ++ " (ext)" :=
  ⟨by decide,
    (find_ident_external "foo" "bar.baz" [] (by decide) (by decide)).1,
    (find_ident_external "foo" "bar.baz" [] (by decide) (by decide)).2⟩

end Pdoc
